import Mathlib

/-!
Verification of the footron build manager's incremental deployment engine.

Shallow embedding of `footron_build_manager` (files `config.py`, `data.py`,
`server.py`).  Python dictionaries are modelled as association lists
(`PyDict`), the JSON state file as an explicit `Json` tree, and the webhook
handler `handle_workflow_run_completed` as a pure function from the static
configuration, the in-memory build data, the persisted file contents and an
environment of external-call outcomes to a trace of observable side effects
plus the resulting state.

External calls that the Python code observes only through exceptions
(`requests` errors, the GitHub status API, the controller reload request)
are given success flags in the environment; `subprocess.run` is invoked
without `check=True` in the source, so a child process's exit status is
never observed by the code — the environment still carries those exit
codes, and the model (faithfully) ignores them.
-/

set_option autoImplicit false

/-- A Python `dict` with string keys, modelled as an insertion-ordered
association list (Python dictionaries preserve insertion order and have
no duplicate keys). -/
abbrev PyDict (α : Type) : Type := List (String × α)

/-- Dictionary lookup, `d[k]` / `d.get(k)`. -/
def pyLookup {α : Type} : PyDict α → String → Option α
  | [], _ => none
  | (k, v) :: rest, key => if k = key then some v else pyLookup rest key

/-- Python `key in d`. -/
def pyContains {α : Type} (d : PyDict α) (k : String) : Bool :=
  (pyLookup d k).isSome

/-- Python `d[k] = v`: update in place if the key exists, else append. -/
def pySet {α : Type} : PyDict α → String → α → PyDict α
  | [], key, v => [(key, v)]
  | (k, w) :: rest, key, v =>
    if k = key then (key, v) :: rest else (k, w) :: pySet rest key v

/-- Python `del d[k]`. -/
def pyErase {α : Type} : PyDict α → String → PyDict α
  | [], _ => []
  | (k, w) :: rest, key =>
    if k = key then pyErase rest key else (k, w) :: pyErase rest key

/-- The key list of a dictionary, `list(d.keys())`. -/
def pyKeyList {α : Type} (d : PyDict α) : List String := d.map Prod.fst

/-- `set(d.keys())` — the key set of a dictionary. -/
def pyKeySet {α : Type} (d : PyDict α) : Finset String := (pyKeyList d).toFinset

/-! ## The diff engine (server.py lines 205–216)

The source computes, for the manifest map `hashes` and the stored map
`existing_hashes`:

    hashes_keys = set(hashes.keys())
    existing_hashes_keys = set(existing_hashes.keys())
    new_hashes = hashes_keys - existing_hashes_keys
    deleted_hashes = existing_hashes_keys - hashes_keys
    overlapping_hashes = hashes_keys & existing_hashes_keys
    changed_hashes = { k in overlapping | hashes[k] != existing_hashes[k] }

`unchanged` is not materialised by the source; it is the complement of
`changed` inside the overlap (the spec's DiffResult component). -/

/-- `new_hashes = hashes_keys - existing_hashes_keys`. -/
def new_hashes (existing hashes : PyDict String) : Finset String :=
  pyKeySet hashes \ pyKeySet existing

/-- `deleted_hashes = existing_hashes_keys - hashes_keys`. -/
def deleted_hashes (existing hashes : PyDict String) : Finset String :=
  pyKeySet existing \ pyKeySet hashes

/-- `overlapping_hashes = hashes_keys & existing_hashes_keys`. -/
def overlapping_hashes (existing hashes : PyDict String) : Finset String :=
  pyKeySet hashes ∩ pyKeySet existing

/-- `changed_hashes`: overlapping keys whose fingerprints differ. -/
def changed_hashes (existing hashes : PyDict String) : Finset String :=
  (overlapping_hashes existing hashes).filter
    (fun k => pyLookup hashes k ≠ pyLookup existing k)

/-- The overlapping keys whose fingerprints agree (the DiffResult's
`unchanged` component; the source keeps it implicit as
`overlapping_hashes` minus `changed_hashes`). -/
def unchanged_hashes (existing hashes : PyDict String) : Finset String :=
  (overlapping_hashes existing hashes).filter
    (fun k => pyLookup hashes k = pyLookup existing k)

/-! List-valued versions of the same sets, fixing one enumeration order
for the `for hash_key in ...` loops (Python set iteration order is
unspecified; the loops' effects below do not depend on it). -/

/-- Keys of the manifest that are not stored yet, in manifest order. -/
def added_list (existing hashes : PyDict String) : List String :=
  (pyKeyList hashes).filter (fun k => !pyContains existing k)

/-- Stored keys missing from the manifest, in stored order. -/
def deleted_list (existing hashes : PyDict String) : List String :=
  (pyKeyList existing).filter (fun k => !pyContains hashes k)

/-- Keys present in both maps, in manifest order. -/
def overlapping_list (existing hashes : PyDict String) : List String :=
  (pyKeyList hashes).filter (fun k => pyContains existing k)

/-- Overlapping keys whose fingerprints differ, in manifest order. -/
def changed_list (existing hashes : PyDict String) : List String :=
  (overlapping_list existing hashes).filter
    (fun k => decide (pyLookup hashes k ≠ pyLookup existing k))

/-! ## data.py: the persisted state store -/

/-- `class Target(BaseModel): hashes: Dict[str, str] = {}` (data.py). -/
structure DataTarget where
  hashes : PyDict String
deriving DecidableEq, Repr

/-- `class BuildData(BaseModel): targets: Dict[str, Target] = {}` (data.py). -/
structure BuildData where
  targets : PyDict DataTarget
deriving DecidableEq, Repr

/-- JSON trees of the shape produced by `json.dump(build_data.dict())`:
every leaf in the persisted store is a string. -/
inductive Json where
  | str : String → Json
  | obj : List (String × Json) → Json

/-- `build_data.dict()["targets"][b]["hashes"]` — a fingerprint map as JSON. -/
def encodeHashes (m : PyDict String) : Json :=
  .obj (m.map (fun p => (p.1, Json.str p.2)))

/-- One `Target.dict()` value as JSON. -/
def encodeTarget (t : DataTarget) : Json :=
  .obj [("hashes", encodeHashes t.hashes)]

/-- `json.dump(build_data.dict(), data_file)` — the bytes written to
`DATA_PATH`, as a JSON tree. -/
def encodeBuildData (bd : BuildData) : Json :=
  .obj [("targets", .obj (bd.targets.map (fun p => (p.1, encodeTarget p.2))))]

/-- Pydantic validation of one `hashes` object: every value must be a
string. -/
def decodeHashes : PyDict Json → Option (PyDict String)
  | [] => some []
  | (k, .str v) :: rest => (decodeHashes rest).map (fun r => (k, v) :: r)
  | (_, .obj _) :: _ => none

/-- Pydantic validation of one `Target` object (`hashes` defaults to the
empty map when absent). -/
def decodeTarget : Json → Option DataTarget
  | .obj fields =>
    match pyLookup fields "hashes" with
    | none => some ⟨[]⟩
    | some (.obj hs) => (decodeHashes hs).map (fun m => ⟨m⟩)
    | some (.str _) => none
  | .str _ => none

/-- Pydantic validation of the `targets` object. -/
def decodeTargets : PyDict Json → Option (PyDict DataTarget)
  | [] => some []
  | (k, j) :: rest =>
    match decodeTarget j with
    | some t => (decodeTargets rest).map (fun r => (k, t) :: r)
    | none => none

/-- `BuildData.parse_obj(json.load(data_file))` (`targets` defaults to
the empty map when absent). -/
def decodeBuildData : Json → Option BuildData
  | .obj fields =>
    match pyLookup fields "targets" with
    | none => some ⟨[]⟩
    | some (.obj ts) => (decodeTargets ts).map (fun m => ⟨m⟩)
    | some (.str _) => none
  | .str _ => none

/-- `load_build_data` (data.py): if `DATA_PATH` does not exist return an
empty `BuildData`, otherwise parse the file.  The file contents are
modelled as `Option Json` (`none` = no file); a validation failure is the
propagated pydantic exception. -/
def load_build_data (file : Option Json) : Except String BuildData :=
  match file with
  | none => .ok ⟨[]⟩
  | some j =>
    match decodeBuildData j with
    | some bd => .ok bd
    | none => .error "validation error"

/-- `save_build_data` (data.py): overwrites `DATA_PATH` with the JSON
dump of the build data (the touch/mkdir of a missing file changes nothing
observable about the resulting contents). -/
def save_build_data (bd : BuildData) (_previous : Option Json) : Option Json :=
  some (encodeBuildData bd)

/-! ## config.py: the target registry -/

/-- `class Target(BaseModel)` from config.py. -/
structure ConfigTarget where
  controller_path : String
  web_path : String
  colors_path : String
  controller_api_url : String
deriving DecidableEq, Repr

/-- Python `c in s` for a single character, over the string's character
list (structural recursion, unlike `String.contains`, so that concrete
runs reduce definitionally). -/
def containsChar (c : Char) : List Char → Bool
  | [] => false
  | x :: rest => if x = c then true else containsChar c rest

/-- Python `s.split(c)` over the string's character list: every maximal
chunk between occurrences of `c`, with `[""]` for the empty string. -/
def splitChar (c : Char) : List Char → List (List Char)
  | [] => [[]]
  | x :: rest =>
    let r := splitChar c rest
    if x = c then [] :: r
    else
      match r with
      | [] => [[x]]
      | h :: t => (x :: h) :: t

/-- `Target.controller_host` (config.py): when `":" in controller_path`,
the chunk before the first `:` (`controller_path.split(":")[0]`), else
`None`. -/
def ConfigTarget.controller_host (t : ConfigTarget) : Option String :=
  if containsChar ':' t.controller_path.data then
    some ⟨(splitChar ':' t.controller_path.data).headD []⟩
  else none

/-- `Target.controller_fs_path` (config.py): when `":" in
controller_path`, the chunk after the first `:`
(`controller_path.split(":")[1]`), else the whole path. -/
def ConfigTarget.controller_fs_path (t : ConfigTarget) : String :=
  if containsChar ':' t.controller_path.data then
    ⟨(splitChar ':' t.controller_path.data).getD 1 []⟩
  else t.controller_path

/-! ## server.py: observable effects, external-call outcomes, and the
webhook run handler -/

/-- One externally observable side effect of a pipeline run, in program
order.  `commitStatus` records a `set_commit_status` attempt (repository,
sha, state, namespaced context, description); `runCmd` a `subprocess.run`
argv; `httpGet` a `github_get_request`; `reloadRequest` the GET against
the target's controller API; `saveData` a `save_build_data` write. -/
inductive Event where
  | commitStatus (repository sha state context description : String)
  | httpGet (url : String)
  | runCmd (argv : List String)
  | reloadRequest (api_url : String)
  | saveData (bd : BuildData)
deriving DecidableEq, Repr

/-- The exceptions that can escape the handler: the `HTTPException` for an
unknown event name, the `RuntimeError` for a missing artifact, a
`raise_for_status` from `github_get_request`, a GitHub status-API error
from `set_commit_status`, and a `raise_for_status` from
`reload_controller`. -/
inductive RunError where
  | unknownEventName
  | missingArtifact
  | httpRequestFailed
  | statusFailed
  | reloadFailed
deriving DecidableEq, Repr

/-- How the Python function terminates: a normal return, or an exception
propagating out of `handle_workflow_run_completed`. -/
inductive Outcome where
  | ok
  | raised (e : RunError)
deriving DecidableEq, Repr

/-- Outcomes of the external calls a run makes.  `artifacts` is the
GitHub artifacts listing (name, archive_download_url); `hashesJson` the
parsed contents of the artifact's `hashes.json`.  The `Ok` flags say
whether the corresponding raising call succeeds (`statusOk` is keyed by
the status description).  The `Exit` fields are child-process exit
statuses: the source calls `subprocess.run` without `check=True`, so
these are returned to the handler but never inspected by it. -/
structure ExtEnv where
  artifacts : List (String × String)
  hashesJson : PyDict String
  githubGetOk : Bool
  statusOk : String → Bool
  reloadOk : Bool
  curlExit : Int
  unzipExit : Int
  deleteExit : String → Int
  syncExit : String → Int
  auxSyncExit : Int
  nowStamp : String
  elapsedSeconds : Nat
  tempDir : String
  accessToken : String

/-- The `workflow_run` fields the handler consumes.  `trigger` is the
payload's `workflow_run["event"]` field. -/
structure WorkflowRun where
  status : String
  trigger : String
  head_branch : String
  head_sha : String
  name : String
  artifacts_url : String
deriving DecidableEq, Repr

/-- A `workflow_run`-completed webhook payload (fields consumed). -/
structure RunEvent where
  workflow_run : WorkflowRun
  repository_full_name : String
deriving DecidableEq, Repr

/-- Result of one handler invocation: the ordered trace of observable
side effects, how the call terminated, the in-memory module global
`data` after the call (mutations survive an exception), and the
persisted `DATA_PATH` contents after the call. -/
structure RunResult where
  trace : List Event
  outcome : Outcome
  data : BuildData
  file : Option Json

/-- `ssh_production_option()` (server.py): the production-marker ssh
option, quoted as the source formats it. -/
def ssh_production_option (now : String) : String :=
  "-o \"SetEnv=FT_PRODUCTION=" ++ now ++ "\""

/-- `rsync_ssh_production_command()` (server.py). -/
def rsync_ssh_production_command (now : String) : String :=
  "ssh " ++ ssh_production_option now

/-- `shlex.split(ssh_production_option())` — the argv words of the ssh
option (shell quoting removed). -/
def ssh_production_args (now : String) : List String :=
  ["-o", "SetEnv=FT_PRODUCTION=" ++ now]

/-- A `set_commit_status` attempt: the context is namespaced as
`footron-ci/<event name>`. -/
def status_event (repo sha event_name state description : String) : Event :=
  .commitStatus repo sha state ("footron-ci/" ++ event_name) description

/-- The `curl` download of an artifact archive (server.py lines 117–127
and 177–187). -/
def curl_cmd (token url dest : String) : Event :=
  .runCmd ["curl", "-H", "Authorization: token " ++ token, "-L", url, "-o", dest]

/-- The `unzip` of a downloaded archive. -/
def unzip_cmd (zipPath dest : String) : Event :=
  .runCmd ["unzip", zipPath, "-d", dest]

/-- The controls pipeline's full-tree mirror (server.py lines 142–152):
`rsync -e <ssh production cmd> -a --delete <temp>/build/ <web_path>`. -/
def controls_sync_cmd (t : ConfigTarget) (now tempDir : String) : Event :=
  .runCmd ["rsync", "-e", rsync_ssh_production_command now, "-a", "--delete",
    tempDir ++ "/build/", t.web_path]

/-- The per-key removal of a deleted experience (server.py lines 236–252):
over ssh (with the production marker) when the target has a controller
host, else a local `rm -rf`. -/
def delete_cmd (t : ConfigTarget) (now key : String) : Event :=
  match t.controller_host with
  | some host =>
    .runCmd (["ssh"] ++ ssh_production_args now ++
      [host, "rm -rf " ++ t.controller_fs_path ++ "/experiences/" ++ key])
  | none =>
    .runCmd ["rm", "-rf", t.controller_fs_path ++ "/experiences/" ++ key]

/-- The per-key experience mirror (server.py lines 263–276): archival
delete-mirroring rsync of the key's scratch subdirectory, excluding the
video file types. -/
def sync_cmd (t : ConfigTarget) (now tempDir key : String) : Event :=
  .runCmd ["rsync", "-avP", "--delete", "-e", rsync_ssh_production_command now,
    "--exclude=*.mp4", "--exclude=*.webm",
    tempDir ++ "/experiences/" ++ key ++ "/",
    t.controller_path ++ "/experiences/" ++ key]

/-- The auxiliary-config mirror (server.py lines 284–297): the three
`.toml` editorial files to the controller path. -/
def aux_sync_cmd (t : ConfigTarget) (now tempDir : String) : Event :=
  .runCmd ["rsync", "-avP", "--delete", "-e", rsync_ssh_production_command now,
    tempDir ++ "/folders.toml", tempDir ++ "/tags.toml",
    tempDir ++ "/collections.toml", t.controller_path]

/-- `artifacts` loop (server.py lines 102–107 / 163–168): first entry
whose name matches, else the `for … else` raises. -/
def findArtifact (name : String) : List (String × String) → Option String
  | [] => none
  | (n, url) :: rest => if n = name then some url else findArtifact name rest

/-- `data.targets[branch].hashes` with pydantic's default for a missing
branch (the handler only reads it after ensuring the branch exists). -/
def branchHashes (bd : BuildData) (branch : String) : PyDict String :=
  ((pyLookup bd.targets branch).getD ⟨[]⟩).hashes

/-- Replace `data.targets[branch].hashes`. -/
def setBranchHashes (bd : BuildData) (branch : String) (h : PyDict String) :
    BuildData :=
  ⟨pySet bd.targets branch ⟨h⟩⟩

/-- `if branch not in data.targets: data.targets[branch] = DataTarget()`
(server.py lines 201–202). -/
def ensureBranch (bd : BuildData) (branch : String) : BuildData :=
  if pyContains bd.targets branch then bd
  else ⟨pySet bd.targets branch ⟨[]⟩⟩

/-- The `build-controls` branch of the handler (server.py lines 95–157):
fetch the artifacts listing, find `web-build`, download, unzip, mirror
the whole build tree to the target's web path, reload the controller.
The module global `data` and the persisted file are never touched. -/
def controls_pipeline (target : ConfigTarget) (data0 : BuildData)
    (file0 : Option Json) (env : ExtEnv) (repo sha artifacts_url : String) :
    RunResult :=
  let t0 : List Event := [.httpGet artifacts_url]
  if !env.githubGetOk then ⟨t0, .raised .httpRequestFailed, data0, file0⟩ else
  match findArtifact "web-build" env.artifacts with
  | none => ⟨t0, .raised .missingArtifact, data0, file0⟩
  | some url =>
    let zipPath := env.tempDir ++ "/web-build.zip"
    let t1 := t0 ++ [status_event repo sha "build-controls" "pending" "Downloading artifacts"]
    if !env.statusOk "Downloading artifacts" then ⟨t1, .raised .statusFailed, data0, file0⟩ else
    let t2 := t1 ++ [curl_cmd env.accessToken url zipPath]
    let t3 := t2 ++ [status_event repo sha "build-controls" "pending" "Extracting artifacts"]
    if !env.statusOk "Extracting artifacts" then ⟨t3, .raised .statusFailed, data0, file0⟩ else
    let t4 := t3 ++ [unzip_cmd zipPath (env.tempDir ++ "/build")]
    let t5 := t4 ++ [status_event repo sha "build-controls" "pending" "Copying web build"]
    if !env.statusOk "Copying web build" then ⟨t5, .raised .statusFailed, data0, file0⟩ else
    let t6 := t5 ++ [controls_sync_cmd target env.nowStamp env.tempDir]
    let t7 := t6 ++ [status_event repo sha "build-controls" "pending" "Reloading controller"]
    if !env.statusOk "Reloading controller" then ⟨t7, .raised .statusFailed, data0, file0⟩ else
    let t8 := t7 ++ [Event.reloadRequest target.controller_api_url]
    if !env.reloadOk then ⟨t8, .raised .reloadFailed, data0, file0⟩ else
    ⟨t8, .ok, data0, file0⟩

/-- The `build-experiences` branch of the handler (server.py lines
158–302).  Faithful points of note:

* the key sets are computed from the stored map *before* the added keys
  are inserted into it (lines 204–210 precede 212–213);
* the source computes `changed_hashes` after those insertions, but an
  inserted key is never in `overlapping_hashes` and insertions do not
  change the fingerprint of an overlapping key, so the set is the one
  computed here from the untouched stored map;
* the added-key insertions into the module global happen before the
  "Deleting deleted experiences" status, the per-key `del` during the
  delete stage, so an exception later in the run leaves those in-memory
  mutations behind;
* `save_build_data` runs after the per-key sync stage and *before* the
  editorial-config sync and the controller reload (line 279 precedes
  lines 281–302);
* per-key `del`/`rm` (and rsync) interleave inside a stage; no call in
  a loop body can raise here (`subprocess.run` is not checked), so the
  stage is modelled as its batch of state updates plus its batch of
  commands. -/
def experiences_pipeline (target : ConfigTarget) (branch : String)
    (data0 : BuildData) (file0 : Option Json) (env : ExtEnv)
    (repo sha artifacts_url : String) : RunResult :=
  let t0 : List Event := [.httpGet artifacts_url]
  if !env.githubGetOk then ⟨t0, .raised .httpRequestFailed, data0, file0⟩ else
  match findArtifact "experiences" env.artifacts with
  | none => ⟨t0, .raised .missingArtifact, data0, file0⟩
  | some url =>
    let zipPath := env.tempDir ++ "/experiences.zip"
    let t1 := t0 ++ [status_event repo sha "build-experiences" "pending" "Downloading artifacts"]
    if !env.statusOk "Downloading artifacts" then ⟨t1, .raised .statusFailed, data0, file0⟩ else
    let t2 := t1 ++ [curl_cmd env.accessToken url zipPath]
    let t3 := t2 ++ [status_event repo sha "build-experiences" "pending" "Extracting artifacts"]
    if !env.statusOk "Extracting artifacts" then ⟨t3, .raised .statusFailed, data0, file0⟩ else
    let t4 := t3 ++ [unzip_cmd zipPath env.tempDir]
    let t5 := t4 ++ [status_event repo sha "build-experiences" "pending" "Comparing hashes"]
    if !env.statusOk "Comparing hashes" then ⟨t5, .raised .statusFailed, data0, file0⟩ else
    let hashes := env.hashesJson
    let data1 := ensureBranch data0 branch
    let existing := branchHashes data1 branch
    let addedL := added_list existing hashes
    let deletedL := deleted_list existing hashes
    let changedL := changed_list existing hashes
    let data2 := setBranchHashes data1 branch
      (addedL.foldl (fun h k => pySet h k ((pyLookup hashes k).getD "")) existing)
    let t6 := t5 ++ [status_event repo sha "build-experiences" "pending" "Deleting deleted experiences"]
    if !env.statusOk "Deleting deleted experiences" then ⟨t6, .raised .statusFailed, data2, file0⟩ else
    let data3 := setBranchHashes data2 branch
      (deletedL.foldl pyErase (branchHashes data2 branch))
    let t7 := t6 ++ deletedL.map (delete_cmd target env.nowStamp)
    let t8 := t7 ++ [status_event repo sha "build-experiences" "pending" "Syncing experiences"]
    if !env.statusOk "Syncing experiences" then ⟨t8, .raised .statusFailed, data3, file0⟩ else
    let t9 := t8 ++ (changedL ++ addedL).map (sync_cmd target env.nowStamp env.tempDir)
    let data4 := setBranchHashes data3 branch hashes
    let file1 := save_build_data data4 file0
    let t10 := t9 ++ [Event.saveData data4]
    let t11 := t10 ++ [status_event repo sha "build-experiences" "pending" "Syncing editorial configs"]
    if !env.statusOk "Syncing editorial configs" then ⟨t11, .raised .statusFailed, data4, file1⟩ else
    let t12 := t11 ++ [aux_sync_cmd target env.nowStamp env.tempDir]
    let t13 := t12 ++ [status_event repo sha "build-experiences" "pending" "Reloading controller"]
    if !env.statusOk "Reloading controller" then ⟨t13, .raised .statusFailed, data4, file1⟩ else
    let t14 := t13 ++ [Event.reloadRequest target.controller_api_url]
    if !env.reloadOk then ⟨t14, .raised .reloadFailed, data4, file1⟩ else
    ⟨t14, .ok, data4, file1⟩

/-- The final `set_commit_status(..., "success", ...)` (server.py lines
305–311): it runs only when the selected pipeline returned normally, and
it can itself raise. -/
def finish_success (repo sha event_name : String) (env : ExtEnv)
    (r : RunResult) : RunResult :=
  match r.outcome with
  | .raised _ => r
  | .ok =>
    let desc := "Successful in " ++ toString env.elapsedSeconds ++ "s"
    let t := r.trace ++ [status_event repo sha event_name "success" desc]
    if !env.statusOk desc then ⟨t, .raised .statusFailed, r.data, r.file⟩
    else ⟨t, .ok, r.data, r.file⟩

/-- `handle_workflow_run_completed` (server.py lines 70–311) as a pure
function of the target registry `cfg` (`config.targets`), the module
global `data0`, the persisted file `file0`, the external outcomes `env`
and the webhook payload `ev`. -/
def handle_workflow_run_completed (cfg : PyDict ConfigTarget)
    (data0 : BuildData) (file0 : Option Json) (env : ExtEnv)
    (ev : RunEvent) : RunResult :=
  let wr := ev.workflow_run
  if wr.status ≠ "completed" ∨ wr.trigger ≠ "push" then
    ⟨[], .ok, data0, file0⟩
  else
    match pyLookup cfg wr.head_branch with
    | none => ⟨[], .ok, data0, file0⟩
    | some target =>
      if wr.name ≠ "build-controls" ∧ wr.name ≠ "build-experiences" then
        ⟨[], .raised .unknownEventName, data0, file0⟩
      else if wr.name = "build-controls" then
        finish_success ev.repository_full_name wr.head_sha "build-controls" env
          (controls_pipeline target data0 file0 env ev.repository_full_name
            wr.head_sha wr.artifacts_url)
      else
        finish_success ev.repository_full_name wr.head_sha "build-experiences" env
          (experiences_pipeline target wr.head_branch data0 file0 env
            ev.repository_full_name wr.head_sha wr.artifacts_url)

/-- The state of a status-report attempt, `none` for non-status events. -/
def Event.statusState : Event → Option String
  | .commitStatus _ _ state _ _ => some state
  | _ => none

/-- Whether an event is a status report with state `failure`. -/
def Event.isFailureStatus : Event → Bool
  | .commitStatus _ _ state _ _ => state == "failure"
  | _ => false

/-- The build data a fully successful experiences run leaves behind: the
branch's fingerprint map is wholesale-replaced by the manifest (final
assignment on server.py line 278, superseding the per-key insertions and
removals made earlier in the run). -/
def exp_final_data (data0 : BuildData) (branch : String)
    (hashes : PyDict String) : BuildData :=
  setBranchHashes (ensureBranch data0 branch) branch hashes

/-- The effect trace of a fully successful experiences run:
`existing` is the stored fingerprint map for the branch before the run,
`dataF` the build data at the commit point, `url` the matched artifact's
archive locator. -/
def exp_success_trace (target : ConfigTarget) (env : ExtEnv)
    (repo sha artifacts_url url : String) (existing : PyDict String)
    (dataF : BuildData) : List Event :=
  [Event.httpGet artifacts_url,
   status_event repo sha "build-experiences" "pending" "Downloading artifacts",
   curl_cmd env.accessToken url (env.tempDir ++ "/experiences.zip"),
   status_event repo sha "build-experiences" "pending" "Extracting artifacts",
   unzip_cmd (env.tempDir ++ "/experiences.zip") env.tempDir,
   status_event repo sha "build-experiences" "pending" "Comparing hashes",
   status_event repo sha "build-experiences" "pending" "Deleting deleted experiences"]
  ++ (deleted_list existing env.hashesJson).map (delete_cmd target env.nowStamp)
  ++ [status_event repo sha "build-experiences" "pending" "Syncing experiences"]
  ++ (changed_list existing env.hashesJson ++ added_list existing env.hashesJson).map
       (sync_cmd target env.nowStamp env.tempDir)
  ++ [Event.saveData dataF,
      status_event repo sha "build-experiences" "pending" "Syncing editorial configs",
      aux_sync_cmd target env.nowStamp env.tempDir,
      status_event repo sha "build-experiences" "pending" "Reloading controller",
      Event.reloadRequest target.controller_api_url,
      status_event repo sha "build-experiences" "success"
        ("Successful in " ++ toString env.elapsedSeconds ++ "s")]

/-- The effect trace of a fully successful controls run. -/
def controls_success_trace (target : ConfigTarget) (env : ExtEnv)
    (repo sha artifacts_url url : String) : List Event :=
  [Event.httpGet artifacts_url,
   status_event repo sha "build-controls" "pending" "Downloading artifacts",
   curl_cmd env.accessToken url (env.tempDir ++ "/web-build.zip"),
   status_event repo sha "build-controls" "pending" "Extracting artifacts",
   unzip_cmd (env.tempDir ++ "/web-build.zip") (env.tempDir ++ "/build"),
   status_event repo sha "build-controls" "pending" "Copying web build",
   controls_sync_cmd target env.nowStamp env.tempDir,
   status_event repo sha "build-controls" "pending" "Reloading controller",
   Event.reloadRequest target.controller_api_url,
   status_event repo sha "build-controls" "success"
     ("Successful in " ++ toString env.elapsedSeconds ++ "s")]

/-! ## Concrete fixtures used by witnesses and counterexamples -/

/-- A registry target with a remote controller host. -/
def exTarget : ConfigTarget :=
  { controller_path := "ft@prod:/opt/footron"
    web_path := "ft@prod:/var/www/footron"
    colors_path := "/opt/footron/colors"
    controller_api_url := "http://prod:8000/api/" }

/-- A one-entry target registry keyed by branch `production`. -/
def exCfg : PyDict ConfigTarget := [("production", exTarget)]

/-- Stored state: branch `production` has experiences `alpha` and `beta`. -/
def exData0 : BuildData :=
  ⟨[("production", ⟨[("alpha", "h1"), ("beta", "h2")]⟩)]⟩

/-- Artifact manifest: `beta` changed, `gamma` added, `alpha` deleted. -/
def exManifest : PyDict String := [("beta", "h2x"), ("gamma", "h3")]

/-- A completed push run of `build-experiences` on branch `production`. -/
def exWr : WorkflowRun :=
  { status := "completed", trigger := "push", head_branch := "production"
    head_sha := "abc123", name := "build-experiences"
    artifacts_url := "https://api.github.com/runs/1/artifacts" }

/-- The webhook payload around `exWr`. -/
def exEvent : RunEvent := ⟨exWr, "BYU-PCCL/footron-experiences"⟩

/-- External world in which every call succeeds. -/
def envAllOk : ExtEnv :=
  { artifacts := [("experiences", "https://api.github.com/artifact/101"),
                  ("web-build", "https://api.github.com/artifact/102")]
    hashesJson := exManifest
    githubGetOk := true
    statusOk := fun _ => true
    reloadOk := true
    curlExit := 0
    unzipExit := 0
    deleteExit := fun _ => 0
    syncExit := fun _ => 0
    auxSyncExit := 0
    nowStamp := "1210"
    elapsedSeconds := 42
    tempDir := "/tmp/run"
    accessToken := "token123" }

/-- Same world, but the controller reload request fails. -/
def envReloadFail : ExtEnv := { envAllOk with reloadOk := false }

/-- Same world, but every delete-stage transfer exits with status 1
(a simulated remote transfer error). -/
def envDeleteFail : ExtEnv := { envAllOk with deleteExit := fun _ => 1 }

/-- Same world, but the status sink fails on the first report. -/
def envStatusFail : ExtEnv :=
  { envAllOk with statusOk := fun d => !(d == "Downloading artifacts") }

/-- The same payload with a head branch absent from the registry. -/
def evUnknownBranch : RunEvent :=
  ⟨{ exWr with head_branch := "unknown-branch" }, "BYU-PCCL/footron-experiences"⟩

/-- The same payload with an unrecognized workflow name. -/
def evUnknownName : RunEvent :=
  ⟨{ exWr with name := "build-deploy" }, "BYU-PCCL/footron-experiences"⟩

/-- The same payload as a controls run. -/
def evControls : RunEvent :=
  ⟨{ exWr with name := "build-controls" }, "BYU-PCCL/footron-controls"⟩

/-- The build data a successful run on the fixtures commits. -/
def exDataFinal : BuildData := ⟨[("production", ⟨exManifest⟩)]⟩

/-! ## Helper lemmas -/

theorem pyLookup_pySet_self {α : Type} (d : PyDict α) (k : String) (v : α) :
    pyLookup (pySet d k v) k = some v := by
  induction d with
  | nil => simp [pySet, pyLookup]
  | cons p rest ih =>
    by_cases h : p.1 = k
    · simp [pySet, h, pyLookup]
    · simp [pySet, h, pyLookup, ih]

theorem pySet_pySet {α : Type} (d : PyDict α) (k : String) (v w : α) :
    pySet (pySet d k v) k w = pySet d k w := by
  induction d with
  | nil => simp [pySet]
  | cons p rest ih =>
    by_cases h : p.1 = k
    · simp [pySet, h]
    · simp [pySet, h, ih]

theorem setBranchHashes_setBranchHashes (bd : BuildData) (b : String)
    (h1 h2 : PyDict String) :
    setBranchHashes (setBranchHashes bd b h1) b h2 = setBranchHashes bd b h2 := by
  simp [setBranchHashes, pySet_pySet]

theorem decodeHashes_encode (h : PyDict String) :
    decodeHashes (h.map (fun p => (p.1, Json.str p.2))) = some h := by
  induction h with
  | nil => rfl
  | cons p rest ih => simp [decodeHashes, ih]

theorem decodeTarget_encode (t : DataTarget) :
    decodeTarget (encodeTarget t) = some t := by
  simp [decodeTarget, encodeTarget, pyLookup, encodeHashes, decodeHashes_encode]

theorem decodeTargets_encode (ts : PyDict DataTarget) :
    decodeTargets (ts.map (fun p => (p.1, encodeTarget p.2))) = some ts := by
  induction ts with
  | nil => rfl
  | cons p rest ih => simp [decodeTargets, decodeTarget_encode, ih]

theorem decodeBuildData_encode (bd : BuildData) :
    decodeBuildData (encodeBuildData bd) = some bd := by
  simp [decodeBuildData, encodeBuildData, pyLookup, decodeTargets_encode]

/-! ## Claim theorems -/

/-- C9: committing a build-data mapping to the state store and loading it
back returns the same mapping, and loading with no persisted state
returns the empty store. -/
theorem build_data_roundtrip (m : BuildData) (f : Option Json) :
    load_build_data (save_build_data m f) = Except.ok m ∧
    load_build_data none = Except.ok ⟨[]⟩ := by
  constructor
  · simp [load_build_data, save_build_data, decodeBuildData_encode]
  · rfl

/-- C3: the diff engine yields `added = keys(new) \ keys(old)`,
`deleted = keys(old) \ keys(new)`, `changed` the common keys with
differing fingerprints, `unchanged` the common keys with equal
fingerprints; the four sets are pairwise disjoint and their union is
`keys(old) ∪ keys(new)`. -/
theorem diff_partitions_key_union (old new : PyDict String) :
    new_hashes old new = pyKeySet new \ pyKeySet old ∧
    deleted_hashes old new = pyKeySet old \ pyKeySet new ∧
    (∀ k, k ∈ changed_hashes old new ↔
      k ∈ pyKeySet old ∧ k ∈ pyKeySet new ∧ pyLookup new k ≠ pyLookup old k) ∧
    (∀ k, k ∈ unchanged_hashes old new ↔
      k ∈ pyKeySet old ∧ k ∈ pyKeySet new ∧ pyLookup new k = pyLookup old k) ∧
    new_hashes old new ∩ deleted_hashes old new = ∅ ∧
    new_hashes old new ∩ changed_hashes old new = ∅ ∧
    new_hashes old new ∩ unchanged_hashes old new = ∅ ∧
    deleted_hashes old new ∩ changed_hashes old new = ∅ ∧
    deleted_hashes old new ∩ unchanged_hashes old new = ∅ ∧
    changed_hashes old new ∩ unchanged_hashes old new = ∅ ∧
    new_hashes old new ∪ deleted_hashes old new ∪ changed_hashes old new ∪
      unchanged_hashes old new = pyKeySet old ∪ pyKeySet new := by
  refine ⟨rfl, rfl, ?_, ?_, ?_, ?_, ?_, ?_, ?_, ?_, ?_⟩
  · intro k
    simp [changed_hashes, overlapping_hashes]
    tauto
  · intro k
    simp [unchanged_hashes, overlapping_hashes]
    tauto
  all_goals
    ext k
    simp [new_hashes, deleted_hashes, changed_hashes, unchanged_hashes,
      overlapping_hashes]
    tauto

/-- C6: a run-completed event whose head branch is not in the target
registry is silently ignored: normal return, no side effects (no remote
operation, no status report), in-memory and persisted state unchanged. -/
theorem unknown_branch_event_ignored (cfg : PyDict ConfigTarget)
    (data0 : BuildData) (file0 : Option Json) (env : ExtEnv) (ev : RunEvent)
    (h : pyLookup cfg ev.workflow_run.head_branch = none) :
    handle_workflow_run_completed cfg data0 file0 env ev =
      ⟨[], .ok, data0, file0⟩ := by
  unfold handle_workflow_run_completed
  simp only [h]
  split <;> rfl

/-- C6 witness: an event for `unknown-branch` against the concrete
registry is ignored with an empty trace and unchanged state. -/
theorem unknown_branch_event_ignored_witness :
    handle_workflow_run_completed exCfg exData0 none envAllOk evUnknownBranch =
      ⟨[], .ok, exData0, none⟩ :=
  unknown_branch_event_ignored exCfg exData0 none envAllOk evUnknownBranch (by decide)

/-- C1: counter to the claim, the state-store commit is not placed after
all executor stages.  On the concrete fixtures, a run whose controller
reload fails (every earlier call succeeding) raises — yet the persisted
store, empty before the run, now holds the new fingerprint map: the
commit on server.py line 279 precedes the editorial-config sync and the
reload (lines 281–302). -/
theorem save_committed_despite_reload_failure :
    (handle_workflow_run_completed exCfg exData0 none envReloadFail exEvent).outcome
        = .raised .reloadFailed ∧
    (handle_workflow_run_completed exCfg exData0 none envReloadFail exEvent).file
        = some (encodeBuildData exDataFinal) ∧
    some (encodeBuildData exDataFinal) ≠ (none : Option Json) := by
  refine ⟨rfl, rfl, ?_⟩
  intro h
  exact Option.noConfusion h

/-- C2: counter to the claim, a transfer failure in the delete stage does
not abort the run.  On the concrete fixtures the delete stage's
`ssh … rm -rf` exits with status 1 (`envDeleteFail`), yet the run is
byte-for-byte the successful run: the push stage's rsyncs for `beta` and
`gamma` execute, the reload request is issued, the new map is committed
and the run returns normally — `subprocess.run` is called without
`check=True`, so the transfer tool's exit status is discarded. -/
theorem delete_stage_failure_does_not_abort :
    handle_workflow_run_completed exCfg exData0 none envDeleteFail exEvent =
      ⟨[Event.httpGet "https://api.github.com/runs/1/artifacts",
        Event.commitStatus "BYU-PCCL/footron-experiences" "abc123" "pending"
          "footron-ci/build-experiences" "Downloading artifacts",
        Event.runCmd ["curl", "-H", "Authorization: token token123", "-L",
          "https://api.github.com/artifact/101", "-o", "/tmp/run/experiences.zip"],
        Event.commitStatus "BYU-PCCL/footron-experiences" "abc123" "pending"
          "footron-ci/build-experiences" "Extracting artifacts",
        Event.runCmd ["unzip", "/tmp/run/experiences.zip", "-d", "/tmp/run"],
        Event.commitStatus "BYU-PCCL/footron-experiences" "abc123" "pending"
          "footron-ci/build-experiences" "Comparing hashes",
        Event.commitStatus "BYU-PCCL/footron-experiences" "abc123" "pending"
          "footron-ci/build-experiences" "Deleting deleted experiences",
        Event.runCmd ["ssh", "-o", "SetEnv=FT_PRODUCTION=1210", "ft@prod",
          "rm -rf /opt/footron/experiences/alpha"],
        Event.commitStatus "BYU-PCCL/footron-experiences" "abc123" "pending"
          "footron-ci/build-experiences" "Syncing experiences",
        Event.runCmd ["rsync", "-avP", "--delete", "-e",
          "ssh -o \"SetEnv=FT_PRODUCTION=1210\"", "--exclude=*.mp4",
          "--exclude=*.webm", "/tmp/run/experiences/beta/",
          "ft@prod:/opt/footron/experiences/beta"],
        Event.runCmd ["rsync", "-avP", "--delete", "-e",
          "ssh -o \"SetEnv=FT_PRODUCTION=1210\"", "--exclude=*.mp4",
          "--exclude=*.webm", "/tmp/run/experiences/gamma/",
          "ft@prod:/opt/footron/experiences/gamma"],
        Event.saveData exDataFinal,
        Event.commitStatus "BYU-PCCL/footron-experiences" "abc123" "pending"
          "footron-ci/build-experiences" "Syncing editorial configs",
        Event.runCmd ["rsync", "-avP", "--delete", "-e",
          "ssh -o \"SetEnv=FT_PRODUCTION=1210\"", "/tmp/run/folders.toml",
          "/tmp/run/tags.toml", "/tmp/run/collections.toml", "ft@prod:/opt/footron"],
        Event.commitStatus "BYU-PCCL/footron-experiences" "abc123" "pending"
          "footron-ci/build-experiences" "Reloading controller",
        Event.reloadRequest "http://prod:8000/api/",
        Event.commitStatus "BYU-PCCL/footron-experiences" "abc123" "success"
          "footron-ci/build-experiences" "Successful in 42s"],
       .ok, exDataFinal, some (encodeBuildData exDataFinal)⟩ := by rfl

/-- C5: counter to the claim, a status-sink failure aborts the pipeline.
On the concrete fixtures the first `set_commit_status` call raises
(simulated network error talking to the sink); the exception propagates:
the run terminates with that error and nothing after the failed report is
executed (no download, no transfer, no reload, no commit). -/
theorem status_sink_failure_aborts_run :
    (handle_workflow_run_completed exCfg exData0 none envStatusFail exEvent).outcome
        = .raised .statusFailed ∧
    (handle_workflow_run_completed exCfg exData0 none envStatusFail exEvent).trace
        = [Event.httpGet "https://api.github.com/runs/1/artifacts",
           status_event "BYU-PCCL/footron-experiences" "abc123"
             "build-experiences" "pending" "Downloading artifacts"] ∧
    (handle_workflow_run_completed exCfg exData0 none envStatusFail exEvent).file
        = none :=
  ⟨rfl, rfl, rfl⟩

/-! ## Structural lemmas about the pipelines -/

theorem controls_pipeline_preserves (target : ConfigTarget) (data0 : BuildData)
    (file0 : Option Json) (env : ExtEnv) (repo sha aurl : String) :
    (controls_pipeline target data0 file0 env repo sha aurl).data = data0 ∧
    (controls_pipeline target data0 file0 env repo sha aurl).file = file0 := by
  refine ⟨?_, ?_⟩ <;>
  · unfold controls_pipeline
    repeat' split
    all_goals rfl

theorem finish_success_preserves (repo sha n : String) (env : ExtEnv)
    (r : RunResult) :
    (finish_success repo sha n env r).data = r.data ∧
    (finish_success repo sha n env r).file = r.file := by
  refine ⟨?_, ?_⟩ <;>
  · unfold finish_success
    repeat' split
    all_goals simp [apply_ite]

theorem isFailureStatus_delete_cmd (t : ConfigTarget) (n k : String) :
    (delete_cmd t n k).isFailureStatus = false := by
  unfold delete_cmd
  cases t.controller_host <;> rfl

theorem controls_pipeline_no_failure_report (target : ConfigTarget)
    (data0 : BuildData) (file0 : Option Json) (env : ExtEnv)
    (repo sha aurl : String) :
    (controls_pipeline target data0 file0 env repo sha aurl).trace.all
      (fun e => !e.isFailureStatus) = true := by
  unfold controls_pipeline
  repeat' split
  all_goals simp [Event.isFailureStatus, status_event, curl_cmd, unzip_cmd,
    controls_sync_cmd]

set_option maxHeartbeats 1000000 in
theorem experiences_pipeline_no_failure_report (target : ConfigTarget)
    (branch : String) (data0 : BuildData) (file0 : Option Json) (env : ExtEnv)
    (repo sha aurl : String) :
    (experiences_pipeline target branch data0 file0 env repo sha aurl).trace.all
      (fun e => !e.isFailureStatus) = true := by
  unfold experiences_pipeline
  repeat' split
  all_goals simp [Event.isFailureStatus, status_event, curl_cmd, unzip_cmd,
    sync_cmd, aux_sync_cmd, isFailureStatus_delete_cmd, List.all_map,
    Function.comp]
  all_goals
    intro a ha
    unfold delete_cmd
    cases target.controller_host <;> rfl

theorem finish_success_no_failure (repo sha n : String) (env : ExtEnv)
    (r : RunResult) (h : r.trace.all (fun e => !e.isFailureStatus) = true) :
    (finish_success repo sha n env r).trace.all
      (fun e => !e.isFailureStatus) = true := by
  cases hr : r.outcome
  · by_cases hs : env.statusOk ("Successful in " ++ toString env.elapsedSeconds ++ "s") = true
    · simp_all [finish_success, hr, hs, status_event, Event.isFailureStatus]
    · simp only [Bool.not_eq_true] at hs
      simp_all [finish_success, hr, hs, status_event, Event.isFailureStatus]
  · simp_all [finish_success, hr]

theorem finish_success_last (repo sha n : String) (env : ExtEnv)
    (r : RunResult) (h : (finish_success repo sha n env r).outcome = .ok) :
    (finish_success repo sha n env r).trace.getLast? =
      some (status_event repo sha n "success"
        ("Successful in " ++ toString env.elapsedSeconds ++ "s")) := by
  cases hr : r.outcome
  · by_cases hs : env.statusOk ("Successful in " ++ toString env.elapsedSeconds ++ "s") = true
    · simp [finish_success, hr, hs, List.getLast?_append_cons]
    · simp only [Bool.not_eq_true] at hs
      simp [finish_success, hr, hs] at h
  · simp [finish_success, hr] at h

set_option maxHeartbeats 1000000 in
/-- The full reduction of a successful experiences run (shared by several
results below): under an all-success environment, the handler returns
exactly the staged trace, the manifest wholesale-replaces the branch's
stored map, and that state is persisted. -/
theorem experiences_success_run_eq (cfg : PyDict ConfigTarget)
    (data0 : BuildData) (file0 : Option Json) (env : ExtEnv) (ev : RunEvent)
    (target : ConfigTarget) (url : String)
    (hstatus : ev.workflow_run.status = "completed")
    (htrigger : ev.workflow_run.trigger = "push")
    (hbranch : pyLookup cfg ev.workflow_run.head_branch = some target)
    (hname : ev.workflow_run.name = "build-experiences")
    (hget : env.githubGetOk = true)
    (hart : findArtifact "experiences" env.artifacts = some url)
    (hstatusOk : env.statusOk = fun _ => true)
    (hreload : env.reloadOk = true) :
    handle_workflow_run_completed cfg data0 file0 env ev =
      ⟨exp_success_trace target env ev.repository_full_name
         ev.workflow_run.head_sha ev.workflow_run.artifacts_url url
         (branchHashes (ensureBranch data0 ev.workflow_run.head_branch)
           ev.workflow_run.head_branch)
         (exp_final_data data0 ev.workflow_run.head_branch env.hashesJson),
       .ok,
       exp_final_data data0 ev.workflow_run.head_branch env.hashesJson,
       some (encodeBuildData
         (exp_final_data data0 ev.workflow_run.head_branch env.hashesJson))⟩ := by
  simp [handle_workflow_run_completed, experiences_pipeline, finish_success,
    exp_success_trace, exp_final_data, save_build_data, hstatus, htrigger,
    hbranch, hname, hget, hart, hstatusOk, hreload,
    setBranchHashes_setBranchHashes]

/-- C7: a recognized controls run in an all-success environment performs
exactly: artifacts fetch, download, unzip, one full-tree delete-mirroring
rsync of the unpacked web-asset tree to the target's web path, and one
reload request (with a pending report before each stage and the final
success report); and — for an arbitrary second environment `env2`, which
may fail anywhere — a controls run never mutates the stored build data or
the persisted file, and the success trace does not depend on the stored
state (no diffing path exists for this pipeline). -/
theorem controls_run_full_mirror_then_reload (cfg : PyDict ConfigTarget)
    (data0 : BuildData) (file0 : Option Json) (env env2 : ExtEnv)
    (ev : RunEvent) (target : ConfigTarget) (url : String)
    (hstatus : ev.workflow_run.status = "completed")
    (htrigger : ev.workflow_run.trigger = "push")
    (hbranch : pyLookup cfg ev.workflow_run.head_branch = some target)
    (hname : ev.workflow_run.name = "build-controls")
    (hget : env.githubGetOk = true)
    (hart : findArtifact "web-build" env.artifacts = some url)
    (hstatusOk : env.statusOk = fun _ => true)
    (hreload : env.reloadOk = true) :
    handle_workflow_run_completed cfg data0 file0 env ev =
      ⟨controls_success_trace target env ev.repository_full_name
         ev.workflow_run.head_sha ev.workflow_run.artifacts_url url,
       .ok, data0, file0⟩ ∧
    (handle_workflow_run_completed cfg data0 file0 env2 ev).data = data0 ∧
    (handle_workflow_run_completed cfg data0 file0 env2 ev).file = file0 := by
  refine ⟨?_, ?_⟩
  · simp [handle_workflow_run_completed, controls_pipeline, finish_success,
      controls_success_trace, hstatus, htrigger, hbranch, hname, hget, hart,
      hstatusOk, hreload]
  · have hred : handle_workflow_run_completed cfg data0 file0 env2 ev =
        finish_success ev.repository_full_name ev.workflow_run.head_sha
          "build-controls" env2
          (controls_pipeline target data0 file0 env2 ev.repository_full_name
            ev.workflow_run.head_sha ev.workflow_run.artifacts_url) := by
      simp [handle_workflow_run_completed, hstatus, htrigger, hbranch, hname]
    rw [hred]
    have h1 := controls_pipeline_preserves target data0 file0 env2
      ev.repository_full_name ev.workflow_run.head_sha
      ev.workflow_run.artifacts_url
    have h2 := finish_success_preserves ev.repository_full_name
      ev.workflow_run.head_sha "build-controls" env2
      (controls_pipeline target data0 file0 env2 ev.repository_full_name
        ev.workflow_run.head_sha ev.workflow_run.artifacts_url)
    exact ⟨h2.1.trans h1.1, h2.2.trans h1.2⟩

/-- C7 witness: the concrete controls run on branch `production`,
instantiated with the all-success environment and (for the second
conjunct) the environment whose reload fails. -/
theorem controls_run_full_mirror_then_reload_witness :
    handle_workflow_run_completed exCfg exData0 none envAllOk evControls =
      ⟨controls_success_trace exTarget envAllOk "BYU-PCCL/footron-controls"
         "abc123" "https://api.github.com/runs/1/artifacts"
         "https://api.github.com/artifact/102",
       .ok, exData0, none⟩ ∧
    (handle_workflow_run_completed exCfg exData0 none envReloadFail evControls).data
        = exData0 ∧
    (handle_workflow_run_completed exCfg exData0 none envReloadFail evControls).file
        = none :=
  controls_run_full_mirror_then_reload exCfg exData0 none envAllOk envReloadFail
    evControls exTarget "https://api.github.com/artifact/102"
    rfl rfl rfl rfl rfl rfl rfl rfl

/-- C8: a recognized experiences run in an all-success environment
performs exactly the staged sequence of `exp_success_trace`: pending
report, then one removal per deleted key; pending report, then one
archival delete-mirroring rsync (excluding `*.mp4`/`*.webm`) per key in
changed ∪ added; the state commit; pending report, then the
auxiliary-config (`folders`/`tags`/`collections`) mirror; pending report,
then exactly one reload request; then the success report. -/
theorem experiences_stage_order (cfg : PyDict ConfigTarget)
    (data0 : BuildData) (file0 : Option Json) (env : ExtEnv) (ev : RunEvent)
    (target : ConfigTarget) (url : String)
    (hstatus : ev.workflow_run.status = "completed")
    (htrigger : ev.workflow_run.trigger = "push")
    (hbranch : pyLookup cfg ev.workflow_run.head_branch = some target)
    (hname : ev.workflow_run.name = "build-experiences")
    (hget : env.githubGetOk = true)
    (hart : findArtifact "experiences" env.artifacts = some url)
    (hstatusOk : env.statusOk = fun _ => true)
    (hreload : env.reloadOk = true) :
    handle_workflow_run_completed cfg data0 file0 env ev =
      ⟨exp_success_trace target env ev.repository_full_name
         ev.workflow_run.head_sha ev.workflow_run.artifacts_url url
         (branchHashes (ensureBranch data0 ev.workflow_run.head_branch)
           ev.workflow_run.head_branch)
         (exp_final_data data0 ev.workflow_run.head_branch env.hashesJson),
       .ok,
       exp_final_data data0 ev.workflow_run.head_branch env.hashesJson,
       some (encodeBuildData
         (exp_final_data data0 ev.workflow_run.head_branch env.hashesJson))⟩ :=
  experiences_success_run_eq cfg data0 file0 env ev target url hstatus htrigger
    hbranch hname hget hart hstatusOk hreload

/-- C8 witness: the concrete experiences run (deleted = {alpha},
changed = {beta}, added = {gamma}) with every external call succeeding. -/
theorem experiences_stage_order_witness :
    handle_workflow_run_completed exCfg exData0 none envAllOk exEvent =
      ⟨exp_success_trace exTarget envAllOk "BYU-PCCL/footron-experiences"
         "abc123" "https://api.github.com/runs/1/artifacts"
         "https://api.github.com/artifact/101"
         (branchHashes (ensureBranch exData0 "production") "production")
         (exp_final_data exData0 "production" exManifest),
       .ok, exp_final_data exData0 "production" exManifest,
       some (encodeBuildData (exp_final_data exData0 "production" exManifest))⟩ :=
  experiences_stage_order exCfg exData0 none envAllOk exEvent exTarget
    "https://api.github.com/artifact/101" rfl rfl rfl rfl rfl rfl rfl rfl

set_option maxHeartbeats 1000000 in
/-- C10: for an experiences run whose external calls succeed through the
commit point (the reload outcome is left unconstrained, so the run may
still fail afterwards), the build data holds exactly the artifact
manifest's map for the deployment key — the wholesale assignment on
server.py line 278 supersedes the per-key insertions and deletions made
earlier — and loading the persisted store back returns exactly that
in-memory state. -/
theorem commit_persists_manifest_map (cfg : PyDict ConfigTarget)
    (data0 : BuildData) (file0 : Option Json) (env : ExtEnv) (ev : RunEvent)
    (target : ConfigTarget) (url : String)
    (hstatus : ev.workflow_run.status = "completed")
    (htrigger : ev.workflow_run.trigger = "push")
    (hbranch : pyLookup cfg ev.workflow_run.head_branch = some target)
    (hname : ev.workflow_run.name = "build-experiences")
    (hget : env.githubGetOk = true)
    (hart : findArtifact "experiences" env.artifacts = some url)
    (hstatusOk : env.statusOk = fun _ => true) :
    load_build_data (handle_workflow_run_completed cfg data0 file0 env ev).file =
      Except.ok (handle_workflow_run_completed cfg data0 file0 env ev).data ∧
    pyLookup (handle_workflow_run_completed cfg data0 file0 env ev).data.targets
        ev.workflow_run.head_branch = some ⟨env.hashesJson⟩ := by
  by_cases hre : env.reloadOk = true
  · have h := experiences_success_run_eq cfg data0 file0 env ev target url
      hstatus htrigger hbranch hname hget hart hstatusOk hre
    rw [h]
    refine ⟨by simp [load_build_data, decodeBuildData_encode], ?_⟩
    simp [exp_final_data, setBranchHashes, pyLookup_pySet_self]
  · simp only [Bool.not_eq_true] at hre
    simp [handle_workflow_run_completed, experiences_pipeline, finish_success,
      save_build_data, hstatus, htrigger, hbranch, hname, hget, hart, hstatusOk,
      hre, setBranchHashes_setBranchHashes, load_build_data,
      decodeBuildData_encode, setBranchHashes, pyLookup_pySet_self]

/-- C10 witness: the concrete experiences run whose reload fails —
the commit point was reached, so the stored and persisted map for
`production` nevertheless equals the manifest. -/
theorem commit_persists_manifest_map_witness :
    load_build_data
        (handle_workflow_run_completed exCfg exData0 none envReloadFail exEvent).file =
      Except.ok
        (handle_workflow_run_completed exCfg exData0 none envReloadFail exEvent).data ∧
    pyLookup
        (handle_workflow_run_completed exCfg exData0 none envReloadFail exEvent).data.targets
        "production" = some ⟨exManifest⟩ :=
  commit_persists_manifest_map exCfg exData0 none envReloadFail exEvent exTarget
    "https://api.github.com/artifact/101" rfl rfl rfl rfl rfl rfl rfl

/-- C4 counterexample: a run that terminates in failure with no failure
status report.  An otherwise-matched completed push run whose workflow
name is unrecognized raises the hard error before any report: the trace
is empty, so no report with state `failure` (nor any report at all) is
emitted against the revision. -/
theorem failed_run_emits_no_failure_report :
    (handle_workflow_run_completed exCfg exData0 none envAllOk evUnknownName).outcome
        = .raised .unknownEventName ∧
    (handle_workflow_run_completed exCfg exData0 none envAllOk evUnknownName).trace
        = [] :=
  ⟨rfl, rfl⟩

/-- C4 (amended): no run ever emits a status report with state `failure`
(the handler has no failure-report call; exceptions propagate to the HTTP
layer unreported), and every run that returns normally either did nothing
observable (an ignored event) or emitted, as its final event, exactly the
one report with state `success` carrying the elapsed duration. -/
theorem success_report_at_end_and_no_failure_reports (cfg : PyDict ConfigTarget)
    (data0 : BuildData) (file0 : Option Json) (env : ExtEnv) (ev : RunEvent) :
    ((handle_workflow_run_completed cfg data0 file0 env ev).trace.all
      (fun e => !e.isFailureStatus)) = true ∧
    ((handle_workflow_run_completed cfg data0 file0 env ev).outcome = .ok →
      (handle_workflow_run_completed cfg data0 file0 env ev).trace = [] ∨
      (handle_workflow_run_completed cfg data0 file0 env ev).trace.getLast? =
        some (status_event ev.repository_full_name ev.workflow_run.head_sha
          ev.workflow_run.name "success"
          ("Successful in " ++ toString env.elapsedSeconds ++ "s"))) := by
  by_cases h1 : ev.workflow_run.status ≠ "completed" ∨ ev.workflow_run.trigger ≠ "push"
  · simp [handle_workflow_run_completed, h1]
  · cases hb : pyLookup cfg ev.workflow_run.head_branch with
    | none => simp [handle_workflow_run_completed, h1, hb]
    | some target =>
      by_cases h2 : ev.workflow_run.name ≠ "build-controls" ∧
          ev.workflow_run.name ≠ "build-experiences"
      · simp [handle_workflow_run_completed, h1, hb, h2]
      · by_cases h3 : ev.workflow_run.name = "build-controls"
        · have hred : handle_workflow_run_completed cfg data0 file0 env ev =
              finish_success ev.repository_full_name ev.workflow_run.head_sha
                "build-controls" env
                (controls_pipeline target data0 file0 env ev.repository_full_name
                  ev.workflow_run.head_sha ev.workflow_run.artifacts_url) := by
            simp [handle_workflow_run_completed, h1, hb, h2, h3]
          rw [hred]
          refine ⟨finish_success_no_failure _ _ _ _ _
            (controls_pipeline_no_failure_report _ _ _ _ _ _ _), ?_⟩
          intro h
          right
          rw [h3]
          exact finish_success_last _ _ _ _ _ h
        · have hname : ev.workflow_run.name = "build-experiences" := by tauto
          have hred : handle_workflow_run_completed cfg data0 file0 env ev =
              finish_success ev.repository_full_name ev.workflow_run.head_sha
                "build-experiences" env
                (experiences_pipeline target ev.workflow_run.head_branch data0
                  file0 env ev.repository_full_name ev.workflow_run.head_sha
                  ev.workflow_run.artifacts_url) := by
            simp [handle_workflow_run_completed, h1, hb, h2, h3, hname]
          rw [hred]
          refine ⟨finish_success_no_failure _ _ _ _ _
            (experiences_pipeline_no_failure_report _ _ _ _ _ _ _ _), ?_⟩
          intro h
          right
          rw [hname]
          exact finish_success_last _ _ _ _ _ h

/-- C4 witness: on the concrete fully-successful experiences run, no
failure-state report appears and the final event is the success report
with the elapsed duration. -/
theorem success_report_at_end_and_no_failure_reports_witness :
    ((handle_workflow_run_completed exCfg exData0 none envAllOk exEvent).trace.all
      (fun e => !e.isFailureStatus)) = true ∧
    ((handle_workflow_run_completed exCfg exData0 none envAllOk exEvent).trace = [] ∨
      (handle_workflow_run_completed exCfg exData0 none envAllOk exEvent).trace.getLast? =
        some (status_event "BYU-PCCL/footron-experiences" "abc123"
          "build-experiences" "success" "Successful in 42s")) :=
  ⟨(success_report_at_end_and_no_failure_reports exCfg exData0 none envAllOk exEvent).1,
   (success_report_at_end_and_no_failure_reports exCfg exData0 none envAllOk exEvent).2 rfl⟩

/-! ## Coherence of the loop enumerations with the diff sets

The pipeline iterates lists; these lemmas check that those lists
enumerate exactly the sets the source computes. -/

theorem pyContains_iff {α : Type} (d : PyDict α) (k : String) :
    pyContains d k = true ↔ k ∈ pyKeyList d := by
  induction d with
  | nil => simp [pyContains, pyLookup, pyKeyList]
  | cons p rest ih =>
    by_cases h : p.1 = k
    · simp [pyContains, pyLookup, pyKeyList, h, Option.isSome] at ih ⊢
    · simp [pyContains, pyLookup, pyKeyList, h, Option.isSome] at ih ⊢
      tauto

theorem added_list_toFinset (existing hashes : PyDict String) :
    (added_list existing hashes).toFinset = new_hashes existing hashes := by
  ext k
  simp [added_list, new_hashes, pyKeySet, List.mem_filter,
    Bool.not_eq_true, ← pyContains_iff]

theorem deleted_list_toFinset (existing hashes : PyDict String) :
    (deleted_list existing hashes).toFinset = deleted_hashes existing hashes := by
  ext k
  simp [deleted_list, deleted_hashes, pyKeySet, List.mem_filter,
    Bool.not_eq_true, ← pyContains_iff]

theorem changed_list_toFinset (existing hashes : PyDict String) :
    (changed_list existing hashes).toFinset = changed_hashes existing hashes := by
  ext k
  simp [changed_list, overlapping_list, changed_hashes, overlapping_hashes,
    pyKeySet, List.mem_filter, ← pyContains_iff]
  tauto
